import Mathlib

/-!
Verification of the pyqsys `Core` connection/transport engine
(`src/pyqsys/qsc_core.py` and `src/pyqsys/qrc_methods.py`).

The development shallowly embeds the pieces of the client that the
specification talks about: the JSON wire encoding used by `Core._send_cmd`,
the error-code translation of `Core._parse_error`, the response handling of
`Core.parse_response`, the submit-and-await pattern of `BaseMethods._send`,
`Core.status_get` and `Core.logon`, the connection lifecycle of
`Core.connect` and `Core.close`, the null-delimited frame extraction of
`Core.sock_handler`, and an interleaving model of the two background workers
(`Core.sock_handler` and `Core.keepalive`).

Bytes are modelled as `Nat`, Python dicts for JSON values as association
lists, Python exceptions as a (class name, message) pair, and the two
threads as a step function over an explicit state record.
-/

/-- JSON values as built by the client (Python objects fed to `json.dumps`).
Objects are association lists in insertion order, matching Python dict
ordering, which is what `json.dumps` serializes. -/
inductive JVal where
  | jstr (s : String)
  | jnum (n : Int)
  | jbool (b : Bool)
  | jobj (fields : List (String × JVal))
  | jarr (elems : List JVal)
deriving Repr

mutual
/-- Model of Python `json.dumps` with its default separators
`(", ", ": ")`, restricted to strings that need no escaping (all strings the
client serializes are plain ASCII identifiers). Braces are written with
hexadecimal escapes. -/
def dumps : JVal → String
  | .jstr s => "\"" ++ s ++ "\""
  | .jnum n => toString n
  | .jbool b => if b then "true" else "false"
  | .jobj fs => "\x7b" ++ dumpsFields fs ++ "\x7d"
  | .jarr es => "[" ++ dumpsElems es ++ "]"

/-- Serialization of the key/value sequence of a JSON object, separated by
`", "`, each key/value pair joined by `": "` (Python default separators). -/
def dumpsFields : List (String × JVal) → String
  | [] => ""
  | [(k, v)] => "\"" ++ k ++ "\": " ++ dumps v
  | (k, v) :: f :: fs => "\"" ++ k ++ "\": " ++ dumps v ++ ", " ++ dumpsFields (f :: fs)

/-- Serialization of the element sequence of a JSON array. -/
def dumpsElems : List JVal → String
  | [] => ""
  | [v] => dumps v
  | v :: w :: ws => dumps v ++ ", " ++ dumpsElems (w :: ws)
end

/-- The UTF-8 bytes of an ASCII string (`str.encode` in Python); on the
ASCII payloads the client produces, codepoints and UTF-8 bytes coincide. -/
def strBytes (s : String) : List Nat := s.toList.map Char.toNat

/-- A request envelope as built by `jsonrpcclient.request` /
`Core._build_cmd`: `method`, optional `params` (the key is omitted when no
params are given) and an optional integer `id` (the heartbeat dict literal
has none). -/
structure Cmd where
  method : String
  params : Option JVal
  id : Option Int
deriving Repr

/-- `jsonrpcclient.request(method, params)` with the fresh id the library
draws from its counter: a dict with keys `jsonrpc`, `method`, `params`
(omitted when absent), `id`, in that order. -/
def build_cmd (method : String) (params : Option JVal) (freshId : Int) : Cmd :=
  ⟨method, params, some freshId⟩

/-- The Python dict underlying an envelope, in the key order the code
constructs it: `jsonrpc`, `method`, `params` (when present), `id` (when
present). -/
def cmdToJVal (c : Cmd) : List (String × JVal) :=
  [("jsonrpc", JVal.jstr "2.0"), ("method", JVal.jstr c.method)]
    ++ (match c.params with | some p => [("params", p)] | none => [])
    ++ (match c.id with | some n => [("id", JVal.jnum n)] | none => [])

/-- The heartbeat dict literal from `Core.sock_handler`:
`cmd = ("jsonrpc": "2.0", "method": "NoOp", "params": ())` — no `id` key. -/
def noop_cmd : Cmd := ⟨"NoOp", some (JVal.jobj []), none⟩

/-- The wire bytes `Core._send_cmd` writes for an envelope:
`json.dumps(cmd).encode("UTF8")` followed by the single delimiter byte 0. -/
def send_cmd_wire (c : Cmd) : List Nat :=
  strBytes (dumps (JVal.jobj (cmdToJVal c))) ++ [0]

/-- A domain error record as returned by `Core._parse_error`: a Python dict
with an `Error` message string and the numeric `Code`. -/
structure ErrRecord where
  Error : String
  Code : Int
deriving Repr, DecidableEq

/-- `Core._parse_error`: the `match` over the documented protocol error
codes. Python `match` statements without a wildcard fall through, and the
function then implicitly returns `None`; that is the `none` default. -/
def parse_error (error_code : Int) : Option ErrRecord :=
  if error_code = -32700 then
    some ⟨"Parse error. Invalid JSON was received by the server.", error_code⟩
  else if error_code = -32600 then
    some ⟨"Invalid request. The JSON sent is not a valid Request object.", error_code⟩
  else if error_code = -32601 then
    some ⟨"Method not found.", error_code⟩
  else if error_code = -32602 then
    some ⟨"Invalid params.", error_code⟩
  else if error_code = -32603 then
    some ⟨"Server error.", error_code⟩
  else if error_code = -32604 then
    some ⟨"Core is on Standby. This code is returned when a QRC command is received while the Core is not the active Core in a redundant Core configuration.", error_code⟩
  else if error_code = 2 then
    some ⟨"Invalid Page Request ID", error_code⟩
  else if error_code = 3 then
    some ⟨"Bad Page Request - could not create the requested Page Request", error_code⟩
  else if error_code = 4 then
    some ⟨"Missing file", error_code⟩
  else if error_code = 5 then
    some ⟨"Change Groups exhausted", error_code⟩
  else if error_code = 6 then
    some ⟨"Unknown change group", error_code⟩
  else if error_code = 7 then
    some ⟨"Unknown component name", error_code⟩
  else if error_code = 8 then
    some ⟨"Unknown control", error_code⟩
  else if error_code = 9 then
    some ⟨"Illegal mixer channel index", error_code⟩
  else if error_code = 10 then
    some ⟨"Logon required", error_code⟩
  else
    none

/-- The documented protocol error codes of the table in `Core._parse_error`. -/
def documentedCodes : List Int :=
  [-32700, -32600, -32601, -32602, -32603, -32604, 2, 3, 4, 5, 6, 7, 8, 9, 10]

/-- A parsed response envelope as produced by `jsonrpcclient.parse_json`:
`Ok(result, id)` or `Error(code, message, data, id)` (named tuples; the
`case Error(message)` pattern in `Core.parse_response` binds the FIRST
positional field, which is the code). -/
inductive ParsedResponse where
  | ok (result : JVal) (id : Int)
  | error (code : Int) (message : String) (data : JVal) (id : Int)
deriving Repr

/-- The dict-like value a correlator operation hands back to its caller:
either the `result` member of an `Ok` envelope, or the value of
`Core._parse_error` for an `Error` envelope (which is `None` for an
undocumented code). -/
inductive RetVal where
  | result (r : JVal)
  | errDict (e : Option ErrRecord)
deriving Repr

/-- How a Python call observably finishes: a normal `return None`, a
returned dict-like value, or a raised exception identified by its class
name and message. -/
inductive PyOutcome where
  | returnedNone
  | returnedDict (v : RetVal)
  | raised (cls : String) (msg : String)
deriving Repr

/-- The exception class of an outcome, `none` when nothing was raised. -/
def raisedClass : PyOutcome → Option String
  | .raised cls _ => some cls
  | _ => none

/-- A send recorded on the wire, tagged by the branch of
`Core.sock_handler` that performed it: an application request popped from
`msg_queue`, or the keepalive `NoOp` frame. -/
inductive WireEvent where
  | app (c : Cmd)
  | noop
deriving Repr

/-- The mutable state of a `Core` object that the claims mention.
`sockThread` is `none` before the first `connect` (the attribute is `None`)
and `some b` for a thread object whose `is_alive()` returns `b`.
`buffer` is the `data` accumulator local to `sock_handler`; `responseQueue`
stores, for each parsed envelope pushed, the frame bytes it was parsed
from; `sentLog` is the sequence of frames written to the socket;
`logMessages` collects `logging`/`print` output. -/
structure CoreState where
  sockThread : Option Bool
  keepaliveThread : Option Bool
  stopThreads : Bool
  keepaliveEvent : Bool
  responseIsReady : Bool
  noopTimer : Nat
  msgQueue : List Cmd
  responseQueue : List (List Nat)
  buffer : List Nat
  sentLog : List WireEvent
  logMessages : List String
  sockClosed : Bool
deriving Repr

/-- The error text logged (or printed, in `BaseMethods._send`) when a
request is attempted without a live handler thread. -/
def notConnectedMsg : String :=
  "Request could not be sent. There is no active connection to the core."

/-- `Core.parse_response(cmd_id, parsed_json)`: on `Ok` with the matching
id, clear `response_is_ready` and return the result; on `Ok` with any
other id, raise `LookupError`; on `Error`, log the bound field (the code)
and return the `_parse_error` translation — without any id check and
without touching `response_is_ready`. -/
def parse_response (s : CoreState) (cmdId : Int) (p : ParsedResponse) :
    CoreState × PyOutcome :=
  match p with
  | .ok result rid =>
      if rid = cmdId then
        ({s with responseIsReady := false}, .returnedDict (.result result))
      else
        (s, .raised "LookupError" "Response has incorrect ID.")
  | .error code _message _data _rid =>
      ({s with logMessages := s.logMessages ++ [toString code]},
       .returnedDict (.errDict (parse_error code)))

/-- Whether a parsed envelope is a result envelope carrying the awaited
request id — the only case in which `parse_response` clears the readiness
signal. -/
def okMatches (cmdId : Int) : ParsedResponse → Bool
  | .ok _ rid => rid == cmdId
  | .error _ _ _ _ => false

/-- The submit-and-await body shared verbatim by `BaseMethods._send`,
`Core.logon` and `Core.status_get`: build the envelope, and if the handler
thread is alive, enqueue it, block on `response_is_ready.wait()`, pop the
response queue and run `parse_response`; otherwise log the not-connected
message and return `None`. Accessing `is_alive` on the `None` attribute
(before any `connect`) raises `AttributeError`. The blocking wait is
modelled by the `resp` argument: the parsed envelope obtained from
`response_queue.get()` once the signal fires. -/
def send_await (s : CoreState) (cmd : Cmd) (freshId : Int)
    (resp : ParsedResponse) : CoreState × PyOutcome :=
  match s.sockThread with
  | none => (s, .raised "AttributeError" "NoneType object has no attribute is_alive")
  | some alive =>
      if alive then
        parse_response {s with msgQueue := s.msgQueue ++ [cmd]} freshId resp
      else
        ({s with logMessages := s.logMessages ++ [notConnectedMsg]}, .returnedNone)

/-- `BaseMethods._send(method, params)` from `qrc_methods.py`. -/
def base_send (s : CoreState) (method : String) (params : Option JVal)
    (freshId : Int) (resp : ParsedResponse) : CoreState × PyOutcome :=
  send_await s (build_cmd method params freshId) freshId resp

/-- `Core.status_get()`: the same pattern with method `StatusGet` and no
params. -/
def status_get (s : CoreState) (freshId : Int) (resp : ParsedResponse) :
    CoreState × PyOutcome :=
  send_await s (build_cmd "StatusGet" none freshId) freshId resp

/-- `Core.logon(user, password)`: the same pattern with method `Logon` and
the `User`/`Password` params dict. -/
def logon (s : CoreState) (user password : String) (freshId : Int)
    (resp : ParsedResponse) : CoreState × PyOutcome :=
  send_await s
    (build_cmd "Logon"
      (some (JVal.jobj [("User", JVal.jstr user), ("Password", JVal.jstr password)]))
      freshId)
    freshId resp

/-- `Core.connect()`: when no handler thread exists or it is not alive,
open a fresh socket, clear the stop/readiness/keepalive signals and start
both workers; otherwise only log `Could not connect to core.`. In both
branches the function returns `None` — nothing is raised. -/
def connect (s : CoreState) : CoreState × PyOutcome :=
  let s0 := {s with logMessages := s.logMessages ++ ["Connecting to Core..."]}
  match s0.sockThread with
  | some true =>
      ({s0 with logMessages := s0.logMessages ++ ["Could not connect to core."]},
       .returnedNone)
  | _ =>
      ({s0 with
          sockThread := some true,
          keepaliveThread := some true,
          sockClosed := false,
          stopThreads := false,
          responseIsReady := false,
          keepaliveEvent := false,
          buffer := [],
          logMessages := s0.logMessages ++ ["Connected"]},
       .returnedNone)

/-- Python `bytes.split` on the single byte 0, as used in
`Core.sock_handler`: every occurrence of the delimiter separates two
segments, empty segments included, so the result always has
`count 0 + 1` parts and is never empty. -/
def splitNull : List Nat → List (List Nat)
  | [] => [[]]
  | b :: xs =>
      if b = 0 then [] :: splitNull xs
      else
        match splitNull xs with
        | [] => [[b]]
        | p :: ps => (b :: p) :: ps

/-- One execution of the successful-recv branch of `Core.sock_handler`:
append the received chunk to the accumulator, count the delimiters, and if
any are present split and treat every part before the last as a complete
frame, writing the last part back as the new accumulator. Returns the
extracted frames and the new accumulator. -/
def sock_recv_step (data chunk : List Nat) : List (List Nat) × List Nat :=
  let d := data ++ chunk
  let null_term_count := d.count 0
  if 0 < null_term_count then
    let parts := splitNull d
    (parts.take null_term_count, parts.getD null_term_count [])
  else
    ([], d)

/-- Iterating `sock_recv_step` over a sequence of received chunks,
accumulating all extracted frames in order and threading the buffer. -/
def runChunks (data : List Nat) : List (List Nat) → List (List Nat) × List Nat
  | [] => ([], data)
  | c :: cs =>
      let fc := sock_recv_step data c
      let rest := runChunks fc.2 cs
      (fc.1 ++ rest.1, rest.2)

/-- The last segment of a split result, with the empty segment as the
(never needed) fallback; total companion of Python `parts[-1]`. -/
def lastD : List (List Nat) → List Nat
  | [] => []
  | [p] => p
  | _ :: p :: ps => lastD (p :: ps)

/-- Prepends a trailing partial segment to the first segment of the split
of the following bytes; used to state how splits of adjacent byte strings
compose. -/
def glueHead (r : List Nat) : List (List Nat) → List (List Nat)
  | [] => [r]
  | q :: qs => (r ++ q) :: qs

/-- The marker bytes `EngineStatus` that `Core.sock_handler` looks for to
recognize unsolicited vendor status broadcasts. -/
def engineStatusBytes : List Nat := strBytes "EngineStatus"

/-- Whether `sub` is an initial run of `xs` (byte-wise). -/
def leadsWith : List Nat → List Nat → Bool
  | [], _ => true
  | _ :: _, [] => false
  | a :: as, b :: bs => a == b && leadsWith as bs

/-- Occurrences of `sub` inside `xs`, counted at every start position.
Python `bytes.count` counts non-overlapping occurrences instead, but
`Core.sock_handler` only tests the count for positivity, and the two
counts are positive on exactly the same inputs. -/
def countOccurrences (sub : List Nat) : List Nat → Nat
  | [] => 0
  | b :: rest =>
      (if leadsWith sub (b :: rest) then 1 else 0) + countOccurrences sub rest

/-- `bytes.decode("UTF8")` for the ASCII frames of the model. -/
def bytesToStr (bs : List Nat) : String := String.mk (bs.map Char.ofNat)

/-- Dispatch of one extracted frame inside the recv branch of
`Core.sock_handler`: a frame containing the `EngineStatus` marker is only
logged; any other frame is parsed and pushed onto `response_queue` (the
model stores the frame the parsed object came from) and
`response_is_ready` is set. -/
def handleFrame (s : CoreState) (frame : List Nat) : CoreState :=
  if 0 < countOccurrences engineStatusBytes frame then
    {s with logMessages := s.logMessages ++ [bytesToStr frame]}
  else
    {s with responseQueue := s.responseQueue ++ [frame], responseIsReady := true}

/-- The loop condition of `Core.sock_handler`:
`not stop_threads.is_set() or not msg_queue.empty()`. -/
def loopContinues (s : CoreState) : Bool :=
  !s.stopThreads || !s.msgQueue.isEmpty

/-- `sock_thread.is_alive()` as observed by `Core.keepalive`: the handler
thread was started and its loop condition still holds. -/
def ioAlive (s : CoreState) : Bool :=
  (s.sockThread == some true) && loopContinues s

/-- One observable action of the running system: a `Core.keepalive`
iteration (`tick`), a `Core.sock_handler` iteration whose `recv` raised
`BlockingIOError` (`ioIdle`), a `sock_handler` iteration that received a
chunk (`recv`), a caller thread enqueuing a request (`enqueue`), and
`close()` raising the stop flag (`setStop`). -/
inductive Act where
  | tick
  | ioIdle
  | recv (chunk : List Nat)
  | enqueue (c : Cmd)
  | setStop
deriving Repr

/-- The interleaving semantics of the two workers. `tick` is one body of
the `Core.keepalive` loop: under the lock, a zero countdown raises the
ping flag and resets the countdown, otherwise the countdown is
decremented. `ioIdle` is the `BlockingIOError` branch of
`Core.sock_handler`: a queued request is popped, written and the countdown
reset; failing that, a raised ping flag causes the `NoOp` frame to be
written, the flag cleared and the countdown reset. `recv` appends received
bytes and dispatches every complete frame. Guards mirror the two `while`
conditions. -/
def step (s : CoreState) (a : Act) : CoreState :=
  match a with
  | .tick =>
      if !s.stopThreads && ioAlive s then
        if s.noopTimer = 0 then
          {s with keepaliveEvent := true, noopTimer := 29,
                  logMessages := s.logMessages ++ ["NoOp - keep alive"]}
        else
          {s with noopTimer := s.noopTimer - 1}
      else s
  | .ioIdle =>
      if loopContinues s then
        match s.msgQueue with
        | c :: rest =>
            {s with msgQueue := rest,
                    sentLog := s.sentLog ++ [WireEvent.app c],
                    noopTimer := 29}
        | [] =>
            if s.keepaliveEvent then
              {s with sentLog := s.sentLog ++ [WireEvent.noop],
                      keepaliveEvent := false,
                      noopTimer := 29}
            else s
      else s
  | .recv chunk =>
      if loopContinues s then
        let fr := sock_recv_step s.buffer chunk
        fr.1.foldl handleFrame {s with buffer := fr.2}
      else s
  | .enqueue c => {s with msgQueue := s.msgQueue ++ [c]}
  | .setStop => {s with stopThreads := true}

/-- Folding a sequence of actions from a start state. -/
def runActs (s : CoreState) : List Act → CoreState
  | [] => s
  | a :: rest => runActs (step s a) rest

/-- The state reached after the first `i` actions of an execution. -/
def stateAt (s : CoreState) (acts : List Act) (i : Nat) : CoreState :=
  runActs s (acts.take i)

/-- The wire frames written by action `i` of an execution. -/
def sentDelta (s : CoreState) (acts : List Act) (i : Nat) : List WireEvent :=
  (stateAt s acts (i + 1)).sentLog.drop (stateAt s acts i).sentLog.length

/-- Whether a wire event is the keepalive `NoOp` frame. -/
def isNoopEv : WireEvent → Bool
  | .noop => true
  | .app _ => false

/-- Action `i` wrote the heartbeat `NoOp` frame. -/
def noopSentAt (s : CoreState) (acts : List Act) (i : Nat) : Bool :=
  (sentDelta s acts i).any isNoopEv

/-- Action `i` wrote an application request frame. -/
def appSentAt (s : CoreState) (acts : List Act) (i : Nat) : Bool :=
  (sentDelta s acts i).any (fun e => !isNoopEv e)

/-- Action `i` raised the ping flag (the countdown reached zero at a
keepalive tick). -/
def pingRaisedAt (s : CoreState) (acts : List Act) (i : Nat) : Bool :=
  !(stateAt s acts i).keepaliveEvent && (stateAt s acts (i + 1)).keepaliveEvent

/-- Specification-side statement of the claim that a heartbeat ping is
sent only when the countdown reached zero with no intervening application
traffic: every action that writes the `NoOp` frame is preceded by a ping
raise with no application frame written strictly between the two. -/
def specHeartbeatOnlyWhenIdle (s : CoreState) (acts : List Act) : Bool :=
  (List.range acts.length).all fun i =>
    !noopSentAt s acts i ||
      (List.range i).any fun j =>
        pingRaisedAt s acts j &&
          ((List.range (i - j - 1)).all fun k => !appSentAt s acts (j + 1 + k))

/-- The post-stop iterations of `Core.sock_handler` observed by
`sock_thread.join()` inside `Core.close`: with the stop flag raised, every
remaining iteration whose `recv` would block pops one queued request and
writes it, until the loop condition fails because the queue is empty. The
first argument is the queue, threaded explicitly for structural
recursion; it is always applied to the state's own `msgQueue`. -/
def drainIter : List Cmd → CoreState → CoreState
  | [], s => s
  | c :: rest, s =>
      drainIter rest
        {s with msgQueue := rest,
                sentLog := s.sentLog ++ [WireEvent.app c],
                noopTimer := 29}

/-- `Core.close()`: raise the stop flag, join the handler thread (which
drains the outbound queue before its loop condition fails), then close the
socket and log. -/
def close (s : CoreState) : CoreState :=
  let s1 := {s with stopThreads := true}
  let s2 := drainIter s1.msgQueue s1
  {s2 with sockClosed := true,
           sockThread := some false,
           keepaliveThread := some false,
           logMessages := s2.logMessages ++ ["Closed connection."]}

/-- The state right after a successful `connect` on a fresh `Core`:
both workers running, all signals clear, countdown at its initial 29,
empty queues and buffer. -/
def connectedState : CoreState :=
  { sockThread := some true, keepaliveThread := some true,
    stopThreads := false, keepaliveEvent := false, responseIsReady := false,
    noopTimer := 29, msgQueue := [], responseQueue := [], buffer := [],
    sentLog := [], logMessages := [], sockClosed := false }

/-- A state whose handler thread has died (for example after the socket
dropped): `is_alive()` is `False`. -/
def deadThreadState : CoreState :=
  {connectedState with sockThread := some false, keepaliveThread := some false}

/-- An execution of the two-worker system in which the countdown reaches
zero (30 keepalive ticks from the initial 29), then an application request
is enqueued and written, and the next idle iteration still writes the
heartbeat because sending the request did not clear the ping flag. -/
def c5trace : List Act :=
  List.replicate 30 Act.tick
    ++ [Act.enqueue (build_cmd "StatusGet" none 1), Act.ioIdle, Act.ioIdle]

theorem splitNull_exists_cons (xs : List Nat) :
    ∃ p ps, splitNull xs = p :: ps := by
  induction xs with
  | nil => exact ⟨[], [], rfl⟩
  | cons b xs ih =>
      obtain ⟨p, ps, hE⟩ := ih
      by_cases hb : b = 0
      · exact ⟨[], splitNull xs, by simp [splitNull, hb]⟩
      · exact ⟨b :: p, ps, by simp [splitNull, hb, hE]⟩

theorem splitNull_ne_nil (xs : List Nat) : splitNull xs ≠ [] := by
  obtain ⟨p, ps, hE⟩ := splitNull_exists_cons xs
  simp [hE]

theorem splitNull_cons_zero (xs : List Nat) :
    splitNull (0 :: xs) = [] :: splitNull xs := rfl

theorem splitNull_cons_ne (b : Nat) (xs : List Nat) (hb : b ≠ 0)
    (p : List Nat) (ps : List (List Nat)) (hE : splitNull xs = p :: ps) :
    splitNull (b :: xs) = (b :: p) :: ps := by
  simp only [splitNull]
  rw [if_neg hb, hE]

theorem splitNull_length (xs : List Nat) :
    (splitNull xs).length = xs.count 0 + 1 := by
  induction xs with
  | nil => rfl
  | cons b xs ih =>
      by_cases hb : b = 0
      · subst hb
        simp [splitNull_cons_zero, List.count_cons, ih]
      · obtain ⟨p, ps, hE⟩ := splitNull_exists_cons xs
        rw [splitNull_cons_ne b xs hb p ps hE]
        rw [hE] at ih
        simpa [List.count_cons, hb] using ih

theorem splitNull_count_zero (xs : List Nat) (h : xs.count 0 = 0) :
    splitNull xs = [xs] := by
  induction xs with
  | nil => rfl
  | cons b xs ih =>
      have hb : b ≠ 0 := by
        intro hb; subst hb; simp [List.count_cons] at h
      have hx : xs.count 0 = 0 := by
        simpa [List.count_cons, hb] using h
      exact splitNull_cons_ne b xs hb xs [] (ih hx)

theorem lastD_cons_cons (p q : List Nat) (ps : List (List Nat)) :
    lastD (p :: q :: ps) = lastD (q :: ps) := rfl

theorem dropLast_append_cons {α : Type} (A : List α) (q : α) (qs : List α) :
    (A ++ q :: qs).dropLast = A ++ (q :: qs).dropLast := by
  induction A with
  | nil => rfl
  | cons a as ih => simp [List.dropLast, ih]

theorem lastD_append_cons (A : List (List Nat)) (q : List Nat)
    (qs : List (List Nat)) : lastD (A ++ q :: qs) = lastD (q :: qs) := by
  induction A with
  | nil => rfl
  | cons a as ih =>
      cases as with
      | nil => exact lastD_cons_cons a q qs
      | cons a2 as2 =>
          rw [List.cons_append] at ih
          rw [List.cons_append, List.cons_append, lastD_cons_cons]
          exact ih

/-- The trailing segment of a null-split contains no delimiter byte. -/
theorem splitNull_last_no_null (xs : List Nat) :
    (lastD (splitNull xs)).count 0 = 0 := by
  induction xs with
  | nil => rfl
  | cons b xs ih =>
      obtain ⟨p, ps, hE⟩ := splitNull_exists_cons xs
      rw [hE] at ih
      by_cases hb : b = 0
      · subst hb
        rw [splitNull_cons_zero, hE, lastD_cons_cons]
        exact ih
      · rw [splitNull_cons_ne b xs hb p ps hE]
        cases ps with
        | nil =>
            have ihp : p.count 0 = 0 := ih
            simp [lastD, List.count_cons, hb, ihp]
        | cons p2 ps2 =>
            rw [lastD_cons_cons]
            rw [lastD_cons_cons] at ih
            exact ih

/-- Splits of adjacent byte strings compose: the split of `xs ++ ys` is
the complete segments of `xs` followed by the split of `ys` with the
trailing partial segment of `xs` glued onto its first segment. -/
theorem splitNull_append (xs ys : List Nat) :
    splitNull (xs ++ ys) =
      (splitNull xs).dropLast ++ glueHead (lastD (splitNull xs)) (splitNull ys) := by
  induction xs with
  | nil =>
      obtain ⟨q, qs, hQ⟩ := splitNull_exists_cons ys
      simp [splitNull, hQ, glueHead, lastD]
  | cons b xs ih =>
      obtain ⟨p, ps, hE⟩ := splitNull_exists_cons xs
      rw [hE] at ih
      by_cases hb : b = 0
      · subst hb
        rw [List.cons_append, splitNull_cons_zero, splitNull_cons_zero, ih, hE,
          lastD_cons_cons]
        rfl
      · obtain ⟨w, ws, hW⟩ := splitNull_exists_cons ys
        rw [splitNull_cons_ne b xs hb p ps hE]
        cases ps with
        | nil =>
            rw [hW] at ih
            have hxy : splitNull (xs ++ ys) = (p ++ w) :: ws := by
              simpa [glueHead] using ih
            rw [List.cons_append, splitNull_cons_ne b (xs ++ ys) hb (p ++ w) ws hxy,
              hW]
            simp [glueHead, lastD]
        | cons p2 ps2 =>
            have hxy1 : splitNull (xs ++ ys) =
                p :: ((p2 :: ps2).dropLast ++
                  glueHead (lastD (p2 :: ps2)) (splitNull ys)) := by
              rw [ih, lastD_cons_cons]
              rfl
            obtain ⟨u, us, hU⟩ :
                ∃ u us, (p2 :: ps2).dropLast ++
                  glueHead (lastD (p2 :: ps2)) (splitNull ys) = u :: us := by
              rw [hW]
              cases ps2 with
              | nil => exact ⟨_, _, rfl⟩
              | cons p3 ps3 =>
                  simp only [List.dropLast, List.cons_append]
                  exact ⟨_, _, rfl⟩
            rw [hU] at hxy1
            rw [List.cons_append, splitNull_cons_ne b (xs ++ ys) hb _ _ hxy1, ← hU,
              lastD_cons_cons]
            rfl

theorem getD_length_sub_one_eq_lastD (l : List (List Nat)) (h : l ≠ []) :
    l.getD (l.length - 1) [] = lastD l := by
  induction l with
  | nil => exact absurd rfl h
  | cons a t ih =>
      cases t with
      | nil => rfl
      | cons b t2 =>
          have hlen : (a :: b :: t2).length - 1 = ((b :: t2).length - 1) + 1 := by
            simp
          rw [hlen, List.getD_cons_succ, lastD_cons_cons]
          exact ih (by simp)

theorem take_length_sub_one_eq_dropLast {α : Type} (l : List α) :
    l.take (l.length - 1) = l.dropLast := by
  induction l with
  | nil => rfl
  | cons a t ih =>
      cases t with
      | nil => rfl
      | cons b t2 =>
          have h1 : (a :: b :: t2).length - 1 = ((b :: t2).length - 1) + 1 := by
            simp
          rw [h1, List.take_succ_cons, ih]
          rfl

/-- Normal form of `sock_recv_step`: the extracted frames are all split
segments but the last, and the new accumulator is the last segment — also
when no delimiter is present. -/
theorem sock_recv_step_eq (data chunk : List Nat) :
    sock_recv_step data chunk =
      ((splitNull (data ++ chunk)).dropLast, lastD (splitNull (data ++ chunk))) := by
  set d := data ++ chunk with hd
  by_cases h : 0 < d.count 0
  · have hlen : (splitNull d).length = d.count 0 + 1 := splitNull_length d
    have hcount : d.count 0 = (splitNull d).length - 1 := by omega
    have htake : (splitNull d).take (d.count 0) = (splitNull d).dropLast := by
      rw [hcount, take_length_sub_one_eq_dropLast]
    have hgetD : (splitNull d).getD (d.count 0) [] = lastD (splitNull d) := by
      rw [hcount, getD_length_sub_one_eq_lastD (splitNull d) (splitNull_ne_nil d)]
    simp only [sock_recv_step, ← hd, if_pos h, htake, hgetD]
  · have hc : d.count 0 = 0 := by omega
    simp [sock_recv_step, ← hd, hc, splitNull_count_zero d hc, lastD]

/-- Composing one extraction step after another is the same as splitting
the concatenated bytes: the trailing partial segment re-enters the next
split unchanged because it contains no delimiter. -/
theorem splitNull_append_re (x y : List Nat) :
    splitNull (x ++ y) =
      (splitNull x).dropLast ++ splitNull (lastD (splitNull x) ++ y) := by
  rw [splitNull_append x y]
  have h0 : (lastD (splitNull x)).count 0 = 0 := splitNull_last_no_null x
  rw [splitNull_append (lastD (splitNull x)) y, splitNull_count_zero _ h0]
  rfl

theorem frames_rest_compose (x y : List Nat) :
    (splitNull (x ++ y)).dropLast
        = (splitNull x).dropLast ++ (splitNull (lastD (splitNull x) ++ y)).dropLast
      ∧ lastD (splitNull (x ++ y))
        = lastD (splitNull (lastD (splitNull x) ++ y)) := by
  obtain ⟨q, qs, hQ⟩ := splitNull_exists_cons (lastD (splitNull x) ++ y)
  constructor
  · rw [splitNull_append_re, hQ, dropLast_append_cons]
  · rw [splitNull_append_re, hQ, lastD_append_cons]

theorem runChunks_cons (cs : List (List Nat)) :
    ∀ d c, runChunks d (c :: cs) = sock_recv_step d (c ++ cs.flatten) := by
  induction cs with
  | nil =>
      intro d c
      simp [runChunks]
  | cons c2 cs ih =>
      intro d c
      have hL : runChunks d (c :: c2 :: cs)
          = ((sock_recv_step d c).1 ++ (runChunks (sock_recv_step d c).2 (c2 :: cs)).1,
             (runChunks (sock_recv_step d c).2 (c2 :: cs)).2) := rfl
      rw [hL, ih, List.flatten_cons]
      rw [sock_recv_step_eq d c, sock_recv_step_eq, sock_recv_step_eq]
      dsimp only
      obtain ⟨hF, hR⟩ := frames_rest_compose (d ++ c) (c2 ++ cs.flatten)
      simp only [← List.append_assoc] at hF hR ⊢
      rw [hF, hR]

/-- C1: for every sequence of byte chunks, iterating the frame-extraction
step of `Core.sock_handler` (append chunk, split on the 0 delimiter, emit
every fully delimited segment, keep the bytes after the last delimiter as
the new buffer) from an empty buffer yields exactly the same frames — and
the same final buffer — for any two chunkings of the same byte stream,
including splits mid-frame and around a delimiter. -/
theorem frames_chunking_invariant (chunks1 chunks2 : List (List Nat))
    (h : chunks1.flatten = chunks2.flatten) :
    runChunks [] chunks1 = runChunks [] chunks2 := by
  have key : ∀ cs : List (List Nat),
      runChunks [] cs = sock_recv_step [] cs.flatten := by
    intro cs
    cases cs with
    | nil => rfl
    | cons c cs => rw [List.flatten_cons, runChunks_cons]
  rw [key, key, h]

/-- Witness for C1 at a concrete stream split two different ways, one of
the splits cutting immediately after a delimiter and one mid-frame. -/
theorem frames_chunking_invariant_witness :
    ([[1, 2, 0, 3], [0, 4]] : List (List Nat)).flatten
        = ([[1], [2, 0], [3, 0, 4]] : List (List Nat)).flatten
      ∧ runChunks [] [[1, 2, 0, 3], [0, 4]] = runChunks [] [[1], [2, 0], [3, 0, 4]] :=
  ⟨by decide, frames_chunking_invariant _ _ (by decide)⟩

/-- C2 (amended): for every documented protocol error code the translator
returns the exact matching domain error record carrying that code; for
every integer code outside the table (for example 999) it returns None —
the match falls through, and no UnknownProtocolError record exists in the
code. -/
theorem parse_error_table :
    parse_error (-32700)
        = some ⟨"Parse error. Invalid JSON was received by the server.", -32700⟩
      ∧ parse_error (-32600)
        = some ⟨"Invalid request. The JSON sent is not a valid Request object.", -32600⟩
      ∧ parse_error (-32601) = some ⟨"Method not found.", -32601⟩
      ∧ parse_error (-32602) = some ⟨"Invalid params.", -32602⟩
      ∧ parse_error (-32603) = some ⟨"Server error.", -32603⟩
      ∧ parse_error (-32604)
        = some ⟨"Core is on Standby. This code is returned when a QRC command is received while the Core is not the active Core in a redundant Core configuration.", -32604⟩
      ∧ parse_error 2 = some ⟨"Invalid Page Request ID", 2⟩
      ∧ parse_error 3
        = some ⟨"Bad Page Request - could not create the requested Page Request", 3⟩
      ∧ parse_error 4 = some ⟨"Missing file", 4⟩
      ∧ parse_error 5 = some ⟨"Change Groups exhausted", 5⟩
      ∧ parse_error 6 = some ⟨"Unknown change group", 6⟩
      ∧ parse_error 7 = some ⟨"Unknown component name", 7⟩
      ∧ parse_error 8 = some ⟨"Unknown control", 8⟩
      ∧ parse_error 9 = some ⟨"Illegal mixer channel index", 9⟩
      ∧ parse_error 10 = some ⟨"Logon required", 10⟩
      ∧ ∀ c : Int, c ∉ documentedCodes → parse_error c = none := by
  refine ⟨rfl, rfl, rfl, rfl, rfl, rfl, rfl, rfl, rfl, rfl, rfl, rfl, rfl, rfl, rfl, ?_⟩
  intro c hc
  simp only [documentedCodes, List.mem_cons, List.not_mem_nil, or_false, not_or] at hc
  obtain ⟨h1, h2, h3, h4, h5, h6, h7, h8, h9, h10, h11, h12, h13, h14, h15⟩ := hc
  simp only [parse_error, if_neg h1, if_neg h2, if_neg h3, if_neg h4, if_neg h5,
    if_neg h6, if_neg h7, if_neg h8, if_neg h9, if_neg h10, if_neg h11, if_neg h12,
    if_neg h13, if_neg h14, if_neg h15]

/-- Witness for C2 at the undocumented code 999. -/
theorem parse_error_table_witness : parse_error 999 = none :=
  parse_error_table.2.2.2.2.2.2.2.2.2.2.2.2.2.2.2 999 (by decide)

/-- C2 counterexample: the translator returns None for the undocumented
code 999; it does not return an UnknownProtocolError record carrying
999 — no record at all comes back. -/
theorem parse_error_unknown_counterexample :
    parse_error 999 = none ∧ ∀ r : ErrRecord, parse_error 999 ≠ some r := by
  refine ⟨rfl, ?_⟩
  intro r h
  simp [parse_error] at h

/-- C3 (amended): with the handler thread dead, `_send`, `status_get` and
`logon` fail immediately by logging the not-connected message and
returning None — no NotConnectedError (nor any exception) is raised, the
operation never reaches the blocking wait, and nothing is enqueued on the
outbound queue. (With no thread object at all, the very `is_alive`
attribute access raises AttributeError instead.) -/
theorem send_no_connection_behavior (s : CoreState) (method : String)
    (params : Option JVal) (user password : String) (freshId : Int)
    (resp : ParsedResponse) (h : s.sockThread = some false) :
    base_send s method params freshId resp
        = ({s with logMessages := s.logMessages ++ [notConnectedMsg]},
           PyOutcome.returnedNone)
      ∧ status_get s freshId resp
        = ({s with logMessages := s.logMessages ++ [notConnectedMsg]},
           PyOutcome.returnedNone)
      ∧ logon s user password freshId resp
        = ({s with logMessages := s.logMessages ++ [notConnectedMsg]},
           PyOutcome.returnedNone)
      ∧ (base_send s method params freshId resp).1.msgQueue = s.msgQueue
      ∧ raisedClass (base_send s method params freshId resp).2 = none := by
  have hbs : base_send s method params freshId resp
      = ({s with logMessages := s.logMessages ++ [notConnectedMsg]},
         PyOutcome.returnedNone) := by
    simp [base_send, send_await, h]
  refine ⟨hbs, ?_, ?_, ?_, ?_⟩
  · simp [status_get, send_await, h]
  · simp [logon, send_await, h]
  · rw [hbs]
  · rw [hbs]
    rfl

/-- Witness for C3 at a concrete dead-thread state: the outbound queue is
untouched. -/
theorem send_no_connection_witness :
    (base_send deadThreadState "Control.Get" none 1
        (ParsedResponse.ok (JVal.jobj []) 1)).1.msgQueue = deadThreadState.msgQueue :=
  (send_no_connection_behavior deadThreadState "Control.Get" none "u" "p" 1
    (ParsedResponse.ok (JVal.jobj []) 1) rfl).2.2.2.1

/-- C3 counterexample: with the handler thread dead, the send operation
raises nothing at all — in particular it does not fail with a
NotConnectedError exception; it returns None after logging. -/
theorem send_no_connection_counterexample :
    raisedClass (base_send deadThreadState "Control.Get" none 1
        (ParsedResponse.ok (JVal.jobj []) 1)).2 = none
      ∧ (base_send deadThreadState "Control.Get" none 1
          (ParsedResponse.ok (JVal.jobj []) 1)).2 = PyOutcome.returnedNone := by
  exact ⟨rfl, rfl⟩

/-- C4 (amended): `parse_response` checks the envelope id only for result
envelopes: a result envelope with a non-matching id makes the operation
fail by raising `LookupError` (the signal is left untouched); a result
envelope with the matching id clears the readiness signal and returns the
result; an ERROR envelope is translated and returned whatever its id, so
an id mismatch on an error envelope goes undetected. The exception raised
on a mismatch is exactly `LookupError`. -/
theorem parse_response_correlation (s : CoreState) (cmdId : Int) (r : JVal)
    (rid : Int) (code : Int) (m : String) (d : JVal) (erid : Int)
    (p : ParsedResponse) :
    parse_response s cmdId (ParsedResponse.ok r rid)
        = (if rid = cmdId then
            ({s with responseIsReady := false},
             PyOutcome.returnedDict (RetVal.result r))
          else
            (s, PyOutcome.raised "LookupError" "Response has incorrect ID."))
      ∧ parse_response s cmdId (ParsedResponse.error code m d erid)
        = ({s with logMessages := s.logMessages ++ [toString code]},
           PyOutcome.returnedDict (RetVal.errDict (parse_error code)))
      ∧ (raisedClass (parse_response s cmdId p).2 = some "LookupError"
          ↔ ∃ r2 rid2, p = ParsedResponse.ok r2 rid2 ∧ rid2 ≠ cmdId) := by
  refine ⟨?_, rfl, ?_⟩
  · by_cases h : rid = cmdId <;> simp [parse_response, h]
  · cases p with
    | ok r2 rid2 =>
        by_cases h : rid2 = cmdId
        · simp [parse_response, h, raisedClass]
        · simp only [parse_response, if_neg h, raisedClass]
          simp only [Option.some.injEq, ParsedResponse.ok.injEq, true_iff]
          exact ⟨r2, rid2, ⟨rfl, rfl⟩, h⟩
    | error c2 m2 d2 rid2 => simp [parse_response, raisedClass]

/-- C4 counterexample: an error envelope with id 2, popped while awaiting
request id 1, does not make the operation fail with any exception —
despite the id mismatch it returns the translated record for its code as
a value. -/
theorem error_envelope_mismatch_counterexample :
    parse_response connectedState 1 (ParsedResponse.error 8 "" (JVal.jobj []) 2)
        = ({connectedState with logMessages := ["8"]},
           PyOutcome.returnedDict (RetVal.errDict (some ⟨"Unknown control", 8⟩)))
      ∧ raisedClass (parse_response connectedState 1
          (ParsedResponse.error 8 "" (JVal.jobj []) 2)).2 = none := by
  exact ⟨rfl, rfl⟩

/-- C10: handling an error envelope returns the translated domain error as
a value while leaving the response-ready signal exactly as it was — still
set after a set signal — and the signal is cleared precisely when the
envelope is a result envelope carrying the matching id. -/
theorem error_leaves_ready_set (s : CoreState) (cmdId : Int) (code : Int)
    (m : String) (d : JVal) (rid : Int) (p : ParsedResponse) :
    (parse_response s cmdId (ParsedResponse.error code m d rid)).1.responseIsReady
        = s.responseIsReady
      ∧ (parse_response s cmdId (ParsedResponse.error code m d rid)).2
        = PyOutcome.returnedDict (RetVal.errDict (parse_error code))
      ∧ (parse_response s cmdId p).1.responseIsReady
        = (if okMatches cmdId p then false else s.responseIsReady) := by
  refine ⟨rfl, rfl, ?_⟩
  cases p with
  | ok r2 rid2 =>
      by_cases h : rid2 = cmdId <;> simp [parse_response, okMatches, h]
  | error c2 m2 d2 rid2 => simp [parse_response, okMatches]

/-- C5 (amended): a keepalive tick with a nonzero countdown only
decrements it, once; a tick at zero raises the ping flag and resets the
countdown to 29; writing a queued application request resets the countdown
to 29 but does NOT clear an already-raised ping flag — so the heartbeat
can still be written after intervening application traffic — and the
heartbeat frame itself is written at an idle iteration with an empty queue
and the flag set, clearing the flag and resetting the countdown. -/
theorem heartbeat_step_facts (s : CoreState) (c : Cmd) (rest : List Cmd) :
    (s.stopThreads = false → ioAlive s = true → s.noopTimer = 0 →
        step s Act.tick
          = {s with
              keepaliveEvent := true,
              noopTimer := 29,
              logMessages := s.logMessages ++ ["NoOp - keep alive"]})
      ∧ (s.stopThreads = false → ioAlive s = true → s.noopTimer ≠ 0 →
          step s Act.tick = {s with noopTimer := s.noopTimer - 1})
      ∧ (loopContinues s = true → s.msgQueue = c :: rest →
          step s Act.ioIdle
            = {s with
                msgQueue := rest,
                sentLog := s.sentLog ++ [WireEvent.app c],
                noopTimer := 29})
      ∧ (loopContinues s = true → s.msgQueue = [] → s.keepaliveEvent = true →
          step s Act.ioIdle
            = {s with
                sentLog := s.sentLog ++ [WireEvent.noop],
                keepaliveEvent := false,
                noopTimer := 29}) := by
  refine ⟨?_, ?_, ?_, ?_⟩
  · intro h1 h2 h3
    simp [step, h1, h2, h3]
  · intro h1 h2 h3
    simp [step, h1, h2, h3]
  · intro h1 h2
    simp [step, h1, h2]
  · intro h1 h2 h3
    simp [step, h1, h2, h3]

/-- Witness for C5 exercising all four step facts at concrete states. -/
theorem heartbeat_step_facts_witness :
    step {connectedState with noopTimer := 0} Act.tick
        = {connectedState with
            noopTimer := 29,
            keepaliveEvent := true,
            logMessages := ["NoOp - keep alive"]}
      ∧ step connectedState Act.tick = {connectedState with noopTimer := 28}
      ∧ step {connectedState with msgQueue := [build_cmd "StatusGet" none 1]} Act.ioIdle
        = {connectedState with
            msgQueue := [],
            sentLog := [WireEvent.app (build_cmd "StatusGet" none 1)],
            noopTimer := 29}
      ∧ step {connectedState with keepaliveEvent := true} Act.ioIdle
        = {connectedState with
            sentLog := [WireEvent.noop],
            keepaliveEvent := false,
            noopTimer := 29} :=
  ⟨(heartbeat_step_facts {connectedState with noopTimer := 0} noop_cmd []).1
      rfl rfl rfl,
   (heartbeat_step_facts connectedState noop_cmd []).2.1 rfl rfl (by decide),
   (heartbeat_step_facts {connectedState with msgQueue := [build_cmd "StatusGet" none 1]}
      (build_cmd "StatusGet" none 1) []).2.2.1 rfl rfl,
   (heartbeat_step_facts {connectedState with keepaliveEvent := true} noop_cmd []).2.2.2
      rfl rfl rfl⟩

/-- C5 counterexample: in the execution `c5trace` from the connected
state, the countdown reaches zero at tick 29 (raising the ping flag), an
application request is then enqueued and written at step 31 (resetting the
countdown but not the flag), and the idle iteration at step 32 still
writes the heartbeat — so a heartbeat is sent even though application
traffic intervened after the countdown reached zero, refuting the claimed
if-and-only-if for this execution of the two-worker system. -/
theorem heartbeat_after_traffic_counterexample :
    specHeartbeatOnlyWhenIdle connectedState c5trace = false
      ∧ noopSentAt connectedState c5trace 32 = true
      ∧ appSentAt connectedState c5trace 31 = true
      ∧ pingRaisedAt connectedState c5trace 29 = true := by
  refine ⟨?_, ?_, ?_, ?_⟩ <;> decide

theorem drainIter_fields (q : List Cmd) :
    ∀ s : CoreState,
      (drainIter q s).sentLog = s.sentLog ++ q.map WireEvent.app
        ∧ (drainIter q s).sockClosed = s.sockClosed
        ∧ (drainIter q s).logMessages = s.logMessages
        ∧ (drainIter q s).stopThreads = s.stopThreads
        ∧ (drainIter q s).msgQueue = (if q.isEmpty then s.msgQueue else []) := by
  induction q with
  | nil =>
      intro s
      simp [drainIter]
  | cons c rest ih =>
      intro s
      have hrec := ih {s with
        msgQueue := rest,
        sentLog := s.sentLog ++ [WireEvent.app c],
        noopTimer := 29}
      refine ⟨?_, hrec.2.1, hrec.2.2.1, hrec.2.2.2.1, ?_⟩
      · show (drainIter rest {s with
            msgQueue := rest,
            sentLog := s.sentLog ++ [WireEvent.app c],
            noopTimer := 29}).sentLog
          = s.sentLog ++ (c :: rest).map WireEvent.app
        rw [hrec.1]
        simp
      · show (drainIter rest {s with
            msgQueue := rest,
            sentLog := s.sentLog ++ [WireEvent.app c],
            noopTimer := 29}).msgQueue
          = if (c :: rest).isEmpty then s.msgQueue else []
        rw [hrec.2.2.2.2]
        cases rest <;> simp

/-- C6: the handler loop of `Core.sock_handler` exits exactly when the
stop flag has been raised and the outbound queue is empty; `close()` joins
the worker — which therefore first writes every request still queued at
close time to the socket — and only afterwards closes the socket, so the
closed state records every previously enqueued request as sent. -/
theorem close_flushes_before_socket_close (s : CoreState) :
    (loopContinues s = false ↔ s.stopThreads = true ∧ s.msgQueue = [])
      ∧ (close s).sentLog = s.sentLog ++ s.msgQueue.map WireEvent.app
      ∧ (close s).msgQueue = []
      ∧ (close s).sockClosed = true
      ∧ (close s).stopThreads = true := by
  refine ⟨?_, ?_, ?_, rfl, ?_⟩
  · simp [loopContinues, List.isEmpty_iff]
  · show (drainIter s.msgQueue {s with stopThreads := true}).sentLog
      = s.sentLog ++ s.msgQueue.map WireEvent.app
    exact (drainIter_fields s.msgQueue {s with stopThreads := true}).1
  · show (drainIter s.msgQueue {s with stopThreads := true}).msgQueue = []
    rw [(drainIter_fields s.msgQueue {s with stopThreads := true}).2.2.2.2]
    cases s.msgQueue <;> simp
  · show (drainIter s.msgQueue {s with stopThreads := true}).stopThreads = true
    rw [(drainIter_fields s.msgQueue {s with stopThreads := true}).2.2.2.1]

/-- C7 (amended): calling `connect` while the handler thread is alive does
not raise — in particular no AlreadyConnectedError, a class the code never
defines; it logs `Could not connect to core.` and returns None, with the
socket, worker threads, flags, queues and buffer all left unchanged (only
the log grows). -/
theorem connect_live_behavior (s : CoreState) (h : s.sockThread = some true) :
    connect s
      = ({s with logMessages :=
            s.logMessages ++ ["Connecting to Core...", "Could not connect to core."]},
         PyOutcome.returnedNone) := by
  simp [connect, h]

/-- Witness for C7 at the concrete connected state. -/
theorem connect_live_witness :
    connect connectedState
      = ({connectedState with logMessages :=
            ["Connecting to Core...", "Could not connect to core."]},
         PyOutcome.returnedNone) :=
  connect_live_behavior connectedState rfl

/-- C7 counterexample: at a live connected state, `connect` raises nothing
(so no AlreadyConnectedError) and leaves the connection state — thread
handles, queue, flags — unchanged. -/
theorem connect_live_counterexample :
    raisedClass (connect connectedState).2 = none
      ∧ (connect connectedState).1.sockThread = connectedState.sockThread
      ∧ (connect connectedState).1.msgQueue = connectedState.msgQueue
      ∧ (connect connectedState).1.stopThreads = connectedState.stopThreads
      ∧ (connect connectedState).1.sockClosed = connectedState.sockClosed := by
  exact ⟨rfl, rfl, rfl, rfl, rfl⟩

/-- C8: encoding an envelope for the wire produces exactly its JSON
serialization followed by the single delimiter byte 0, and the heartbeat
envelope is exactly the three-key dict with `jsonrpc`, `method` `NoOp` and
empty `params` — no id key — whose wire frame is byte-for-byte the shown
object with exactly one 0 byte, at the end. -/
theorem send_cmd_wire_spec :
    (∀ c : Cmd, send_cmd_wire c = strBytes (dumps (JVal.jobj (cmdToJVal c))) ++ [0])
      ∧ (cmdToJVal noop_cmd).map Prod.fst = ["jsonrpc", "method", "params"]
      ∧ cmdToJVal noop_cmd
        = [("jsonrpc", JVal.jstr "2.0"), ("method", JVal.jstr "NoOp"),
           ("params", JVal.jobj [])]
      ∧ send_cmd_wire noop_cmd
        = strBytes "\x7b\"jsonrpc\": \"2.0\", \"method\": \"NoOp\", \"params\": \x7b\x7d\x7d"
            ++ [0]
      ∧ (send_cmd_wire noop_cmd).count 0 = 1 := by
  refine ⟨fun c => rfl, rfl, rfl, rfl, ?_⟩
  decide

theorem leadsWith_iff (sub : List Nat) :
    ∀ xs : List Nat, leadsWith sub xs = true ↔ ∃ t, xs = sub ++ t := by
  induction sub with
  | nil =>
      intro xs
      simp [leadsWith]
  | cons a as ih =>
      intro xs
      cases xs with
      | nil =>
          simp [leadsWith]
      | cons b bs =>
          simp only [leadsWith, Bool.and_eq_true, beq_iff_eq]
          constructor
          · rintro ⟨hab, h⟩
            subst hab
            obtain ⟨t, rfl⟩ := (ih bs).mp h
            exact ⟨t, rfl⟩
          · rintro ⟨t, ht⟩
            rw [List.cons_append] at ht
            injection ht with h1 h2
            exact ⟨h1.symm ▸ rfl, (ih bs).mpr ⟨t, h2⟩⟩

theorem countOccurrences_pos_iff (sub : List Nat) (hsub : sub ≠ []) :
    ∀ xs : List Nat,
      0 < countOccurrences sub xs ↔ ∃ pre post, xs = pre ++ sub ++ post := by
  intro xs
  induction xs with
  | nil =>
      simp only [countOccurrences, Nat.lt_irrefl, false_iff]
      rintro ⟨pre, post, h⟩
      rcases List.append_eq_nil.mp h.symm with ⟨h1, h2⟩
      rcases List.append_eq_nil.mp h1 with ⟨h3, h4⟩
      exact hsub h4
  | cons b rest ih =>
      have hcalc : countOccurrences sub (b :: rest)
          = (if leadsWith sub (b :: rest) = true then 1 else 0)
            + countOccurrences sub rest := rfl
      constructor
      · intro hpos
        by_cases hl : leadsWith sub (b :: rest) = true
        · obtain ⟨t, ht⟩ := (leadsWith_iff sub (b :: rest)).mp hl
          exact ⟨[], t, by simpa using ht⟩
        · have hr : 0 < countOccurrences sub rest := by
            rw [hcalc, if_neg hl] at hpos
            simpa using hpos
          obtain ⟨pre, post, hp⟩ := ih.mp hr
          exact ⟨b :: pre, post, by rw [hp]; simp⟩
      · rintro ⟨pre, post, hp⟩
        cases pre with
        | nil =>
            have hl : leadsWith sub (b :: rest) = true :=
              (leadsWith_iff sub (b :: rest)).mpr ⟨post, by simpa using hp⟩
            rw [hcalc, if_pos hl]
            omega
        | cons p0 ptl =>
            rw [List.cons_append, List.cons_append] at hp
            injection hp with h1 h2
            have hr : 0 < countOccurrences sub rest :=
              ih.mpr ⟨ptl, post, h2⟩
            rw [hcalc]
            omega

/-- C9: `Core.sock_handler` classifies an extracted frame as an
unsolicited event exactly when its bytes contain the `EngineStatus` marker
as a contiguous substring anywhere; such a frame is only logged — it is
never pushed into the response queue and never sets the readiness signal,
so a correlated response whose payload happens to contain the marker is
silently dropped — while every other frame is pushed and sets the
signal. -/
theorem engine_status_classification (s : CoreState) (frame : List Nat) :
    ((0 < countOccurrences engineStatusBytes frame)
        ↔ ∃ pre post, frame = pre ++ engineStatusBytes ++ post)
      ∧ (handleFrame s frame).responseQueue
        = (if 0 < countOccurrences engineStatusBytes frame
           then s.responseQueue else s.responseQueue ++ [frame])
      ∧ (handleFrame s frame).responseIsReady
        = (if 0 < countOccurrences engineStatusBytes frame
           then s.responseIsReady else true)
      ∧ (handleFrame s frame).logMessages
        = (if 0 < countOccurrences engineStatusBytes frame
           then s.logMessages ++ [bytesToStr frame] else s.logMessages) := by
  refine ⟨countOccurrences_pos_iff engineStatusBytes (by decide) frame, ?_, ?_, ?_⟩
  all_goals
    by_cases h : 0 < countOccurrences engineStatusBytes frame <;>
      simp [handleFrame, h]
